import Mathlib

/-!
# Kontainer: a shallow embedding of `main.go`

The program is one Go file with six functions: `main`, `run`, `child`,
`setupCG`, `teardownCG` and `must`.  Everything it does is a system effect
(a syscall, a file operation, a process spawn, a line on standard output), so
the embedding records, in order, the effects a function issues, and takes the
answer of the operating system to each of them from a parameter.

* `Env` is what the process reads about itself: `os.Args`, `os.Getpid()`,
  `os.Getuid()`, `os.Getgid()`, and what `exec.LookPath` finds for a name.
* `World` gives the `error` value (`none` for `nil`) that the operating system
  returns for an effect.
* `M α` is a computation that extends the effect trace, may register deferred
  calls and either returns or panics.  A Go `panic` is `Except.error`; a
  panicking function still runs the calls it deferred.
-/

namespace Kontainer

/-! ## Data model -/

/-- A Go `error` value that is not `nil`, identified by its message. -/
structure Error where
  msg : String
deriving DecidableEq, Repr

/-- The value carried by a Go panic. -/
inductive Panic where
  /-- The call `panic(s)` with a string, as in the default branch of `main`. -/
  | str (s : String)
  /-- The call `panic(err)` issued by `must`. -/
  | err (e : Error)
  /-- The runtime error of an index expression `xs[i]` with `i ≥ len(xs)`. -/
  | indexOutOfRange (i len : Nat)
  /-- The runtime error of a slice expression `xs[i:]` with `i > len(xs)`. -/
  | sliceOutOfRange (i len : Nat)
deriving DecidableEq, Repr

/-- One entry of `syscall.SysProcIDMap`. -/
structure SysProcIDMap where
  ContainerID : Int
  HostID : Int
  Size : Int
deriving DecidableEq, Repr

/-- The fields of `syscall.SysProcAttr` that `run` sets. -/
structure SysProcAttr where
  Cloneflags : Nat
  Unshareflags : Nat
  UidMappings : List SysProcIDMap
  GidMappings : List SysProcIDMap
deriving DecidableEq, Repr

/-- The three standard streams of the process (`os.Stdin`, `os.Stdout`, `os.Stderr`). -/
inductive Stream where
  | osStdin
  | osStdout
  | osStderr
deriving DecidableEq, Repr

/-- The fields of `exec.Cmd` that the program or `exec.Command` sets. `Err` is
the error of the lookup of the program, kept until the command is started. -/
structure Cmd where
  Path : String
  Args : List String
  Stdin : Option Stream
  Stdout : Option Stream
  Stderr : Option Stream
  SysProcAttr : Option SysProcAttr
  Err : Option Error
deriving DecidableEq, Repr

/-- A system effect issued by the program, with the arguments of the call. -/
inductive Effect where
  /-- A `fmt.Printf` of the given text on standard output. -/
  | print (text : String)
  /-- The call `syscall.Sethostname`. -/
  | sethostname (name : String)
  /-- The call `syscall.Chroot`. -/
  | chroot (path : String)
  /-- The call `syscall.Chdir`. -/
  | chdir (path : String)
  /-- The call `syscall.Mount(source, target, fstype, flags, data)`. -/
  | mount (source target fstype : String) (flags : Nat) (data : String)
  /-- The call `syscall.Unmount(target, flags)`. -/
  | unmount (target : String) (flags : Int)
  /-- The call `os.Mkdir(path, perm)`. -/
  | mkdir (path : String) (perm : Nat)
  /-- The call `os.WriteFile(path, data, perm)`. -/
  | writeFile (path : String) (data : String) (perm : Nat)
  /-- The call `os.Remove(path)`. -/
  | remove (path : String)
  /-- The process started by `cmd.Run()`, which waits for it to end. -/
  | cmdRun (cmd : Cmd)
deriving DecidableEq, Repr

/-- What the process reads about itself. `euid` is the effective user id
(`os.Geteuid()`), part of the credentials of every process; the program never
reads it. `lookPath` is the result of `exec.LookPath` on a name, the path found
and the error; a process of this program looks up one name at most (the
entrant, after its root change). -/
structure Env where
  args : List String
  pid : Int
  uid : Int
  euid : Int
  gid : Int
  lookPath : String → String × Option Error

/-- The answer of the operating system to each call: `none` is a `nil` error. -/
abbrev World := Effect → Option Error

/-- A call registered with `defer`. The program defers one call only. -/
inductive Deferred where
  | teardownCG
deriving DecidableEq, Repr

/-- The effects issued so far and the calls deferred by the running function. -/
structure State where
  trace : List Effect
  defers : List Deferred
deriving DecidableEq, Repr

deriving instance DecidableEq for Except

/-- A computation: from a state to the new state and a value or a panic. -/
def M (α : Type) : Type := State → State × Except Panic α

/-- Return a value without any effect. -/
def M.pure {α : Type} (a : α) : M α := fun s => (s, Except.ok a)

/-- Sequencing: a panic of the first computation skips the second. -/
def M.bind {α β : Type} (m : M α) (f : α → M β) : M β := fun s =>
  match m s with
  | (s1, Except.ok a) => f a s1
  | (s1, Except.error p) => (s1, Except.error p)

instance : Monad M where
  pure := M.pure
  bind := M.bind

/-- The Go builtin `panic`. -/
def panic {α : Type} (p : Panic) : M α := fun s => (s, Except.error p)

/-- Issue an effect and get the error value the operating system returns. -/
def call (w : World) (eff : Effect) : M (Option Error) := fun s =>
  (State.mk (s.trace ++ [eff]) s.defers, Except.ok (w eff))

/-- The call `fmt.Printf`; its results are not used by the program. -/
def printf (text : String) : M Unit := fun s =>
  (State.mk (s.trace ++ [Effect.print text]) s.defers, Except.ok ())

/-- The Go statement `defer`: push the call on the stack of the running function. -/
def defer (d : Deferred) : M Unit := fun s =>
  (State.mk s.trace (d :: s.defers), Except.ok ())

/-- The index expression `xs[i]`. -/
def index (xs : List String) (i : Nat) : M String :=
  match xs.get? i with
  | some x => pure x
  | none => panic (Panic.indexOutOfRange i xs.length)

/-- The slice expression `xs[i:]`. -/
def sliceFrom (xs : List String) (i : Nat) : M (List String) :=
  if i ≤ xs.length then pure (xs.drop i) else panic (Panic.sliceOutOfRange i xs.length)

/-! ## Library functions used by the program -/

namespace filepath

/-- Split a path at each separator `/`. -/
def splitSep : List Char → List (List Char)
  | [] => [[]]
  | c :: cs =>
    match splitSep cs with
    | [] => [[]]
    | x :: xs => if c = '/' then [] :: x :: xs else (c :: x) :: xs

/-- Process the elements of a path from left to right, keeping the elements
kept so far in reverse order: drop empty elements and `.`, and let `..` remove
the element before it (a `..` that starts a rooted path is dropped, one that
starts a relative path is kept). -/
def cleanElems (rooted : Bool) : List (List Char) → List (List Char) → List (List Char)
  | [], acc => acc.reverse
  | e :: es, acc =>
    if e = [] ∨ e = ['.'] then cleanElems rooted es acc
    else if e = ['.', '.'] then
      match acc with
      | [] => if rooted then cleanElems rooted es [] else cleanElems rooted es [e]
      | a :: as =>
        if a = ['.', '.'] then cleanElems rooted es (e :: a :: as)
        else cleanElems rooted es as
    else cleanElems rooted es (e :: acc)

/-- The function `filepath.Clean` on Unix paths. -/
def Clean (path : String) : String :=
  let rooted := path.data.head? = some '/'
  let elems := cleanElems rooted (splitSep path.data) []
  let body := String.mk (List.intercalate ['/'] elems)
  if rooted then "/" ++ body else if body = "" then "." else body

/-- The function `filepath.Base` on Unix paths: the last element of the path
without its trailing separators; `.` for the empty path and `/` for a path of
separators only. -/
def Base (path : String) : String :=
  if path = "" then "." else
    let last := ((path.data.reverse.dropWhile (fun c => c = '/')).takeWhile
      (fun c => c ≠ '/')).reverse
    if last = [] then "/" else String.mk last

/-- The function `filepath.Join` on Unix paths: the elements from the first
non-empty one on, joined with `/`, then cleaned; the empty string when every
element is empty. -/
def Join (elem : List String) : String :=
  match elem.dropWhile (fun e => e = "") with
  | [] => ""
  | es => Clean (String.intercalate "/" es)

end filepath

namespace strconv

/-- The function `strconv.Itoa`: the decimal text of an integer. -/
def Itoa (n : Int) : String := toString n

end strconv

/-- The verb `%v` of `fmt` on a slice of strings: `[a b c]`. -/
def fmtStrings (xs : List String) : String := "[" ++ String.intercalate " " xs ++ "]"

/-- The function `exec.Command(name, arg...)`: `Path` is the name and `Args`
holds the name and then the arguments; the streams and `SysProcAttr` are left
`nil`. When the name has no separator (`filepath.Base(name) == name`) the
program is looked up with `exec.LookPath`: a path found replaces `Path`, and
an error of the lookup is kept in `Err`. -/
def exec.Command (lookPath : String → String × Option Error) (name : String)
    (arg : List String) : Cmd :=
  let cmd := Cmd.mk name (name :: arg) none none none none none
  if filepath.Base name = name then
    let lp := lookPath name
    let cmd := if lp.1 ≠ "" then
        Cmd.mk lp.1 cmd.Args cmd.Stdin cmd.Stdout cmd.Stderr cmd.SysProcAttr cmd.Err
      else cmd
    match lp.2 with
    | some err => Cmd.mk cmd.Path cmd.Args cmd.Stdin cmd.Stdout cmd.Stderr cmd.SysProcAttr
        (some err)
    | none => cmd
  else cmd

/-- The error with which `cmd.Run()` returns before it starts any process:
the error kept from the lookup, or `exec: no command` for an empty `Path`. -/
def Cmd.startError (c : Cmd) : Option Error :=
  match c.Err with
  | some err => some err
  | none => if c.Path = "" then some (Error.mk "exec: no command") else none

/-- The method `cmd.Run()`: return the start error if there is one, without
starting a process; otherwise start the process, wait for it and return its
error (a failed start, or an exit status other than 0). -/
def Cmd.Run (w : World) (c : Cmd) : M (Option Error) :=
  match c.startError with
  | some err => pure (some err)
  | none => call w (Effect.cmdRun c)

/-- The constant `syscall.CLONE_NEWUTS`. -/
def syscall.CLONE_NEWUTS : Nat := 0x4000000
/-- The constant `syscall.CLONE_NEWPID`. -/
def syscall.CLONE_NEWPID : Nat := 0x20000000
/-- The constant `syscall.CLONE_NEWNS`. -/
def syscall.CLONE_NEWNS : Nat := 0x20000
/-- The constant `syscall.CLONE_NEWUSER`. -/
def syscall.CLONE_NEWUSER : Nat := 0x10000000

/-! ## The program -/

/-- The function `must` of `main.go`: panic with the error when it is not `nil`. -/
def must (err : Option Error) : M Unit :=
  match err with
  | some e => panic (Panic.err e)
  | none => pure ()

/-- The function `setupCG` of `main.go`: create the control group
`/sys/fs/cgroup/pids/kontainer` and write its three files. The result of
`os.Mkdir` is discarded; each `os.WriteFile` goes through `must`. -/
def setupCG (e : Env) (w : World) : M Unit := do
  let cgroups := "/sys/fs/cgroup/"
  let pids := filepath.Join [cgroups, "pids"]
  let _ ← call w (Effect.mkdir (filepath.Join [pids, "kontainer"]) 0o755)
  must (← call w (Effect.writeFile (filepath.Join [pids, "kontainer/pids.max"]) "20" 0o700))
  must (← call w (Effect.writeFile (filepath.Join [pids, "kontainer/notify_on_release"]) "1" 0o700))
  must (← call w (Effect.writeFile (filepath.Join [pids, "kontainer/cgroup.procs"])
    (strconv.Itoa e.pid) 0o700))

/-- The function `teardownCG` of `main.go`: remove the control group
directory. The result of `os.Remove` is discarded. -/
def teardownCG (w : World) : M Unit := do
  let cgroups := "/sys/fs/cgroup/"
  let pids := filepath.Join [cgroups, "pids"]
  let _ ← call w (Effect.remove (filepath.Join [pids, "kontainer"]))

/-- Run one deferred call. -/
def runDeferred (w : World) : Deferred → M Unit
  | Deferred.teardownCG => teardownCG w

/-- Run the deferred calls of a function that ended with result `r`, the last
deferred first. A deferred call that returns leaves the result (a panic keeps
propagating); one that panics replaces it. -/
def runDefers {α : Type} (w : World) : List Deferred → Except Panic α → M α
  | [], r => fun s => (s, r)
  | d :: ds, r => fun s =>
    match runDeferred w d s with
    | (s1, Except.ok _) => runDefers w ds r s1
    | (s1, Except.error p) => runDefers w ds (Except.error p) s1

/-- A Go function body: it starts with no deferred call, and when it returns
or panics its deferred calls run before control goes back to the caller. -/
def func {α : Type} (w : World) (body : M α) : M α := fun s =>
  match body (State.mk s.trace []) with
  | (s1, r) =>
    match runDefers w s1.defers r (State.mk s1.trace []) with
    | (s2, r2) => (State.mk s2.trace s.defers, r2)

/-- The command built by `run`: the same executable with `child` and the
arguments of the user, the standard streams, and the namespace flags and id
mappings in `SysProcAttr`. -/
def runCmd (e : Env) (rest : List String) : Cmd :=
  let cmd := exec.Command e.lookPath "/proc/self/exe" (["child"] ++ rest)
  let cmd := Cmd.mk cmd.Path cmd.Args (some Stream.osStdin) cmd.Stdout cmd.Stderr
    cmd.SysProcAttr cmd.Err
  let cmd := Cmd.mk cmd.Path cmd.Args cmd.Stdin (some Stream.osStdout) cmd.Stderr
    cmd.SysProcAttr cmd.Err
  let cmd := Cmd.mk cmd.Path cmd.Args cmd.Stdin cmd.Stdout (some Stream.osStderr)
    cmd.SysProcAttr cmd.Err
  Cmd.mk cmd.Path cmd.Args cmd.Stdin cmd.Stdout cmd.Stderr (some (SysProcAttr.mk
    (syscall.CLONE_NEWUTS ||| syscall.CLONE_NEWPID ||| syscall.CLONE_NEWNS |||
      syscall.CLONE_NEWUSER)
    syscall.CLONE_NEWNS
    [SysProcIDMap.mk 0 e.uid 1]
    [SysProcIDMap.mk 0 e.gid 1])) cmd.Err

/-- The text printed by the first statement of `run`. -/
def parentBanner (e : Env) (rest : List String) : String :=
  "Running Command Parent (pid: " ++ toString e.pid ++ ") (uid: " ++ toString e.uid
    ++ ") (gid: " ++ toString e.gid ++ ") -> " ++ fmtStrings rest ++ "\n"

/-- The function `run` of `main.go`. -/
def run (e : Env) (w : World) : M Unit := func w do
  printf (parentBanner e (← sliceFrom e.args 2))
  let cmd := runCmd e (← sliceFrom e.args 2)
  if e.uid = 0 then
    setupCG e w
    defer Deferred.teardownCG
  must (← cmd.Run w)

/-- The command built by `child`: the program of the user with its arguments
and the standard streams. -/
def childCmd (lookPath : String → String × Option Error) (name : String)
    (arg : List String) : Cmd :=
  let cmd := exec.Command lookPath name arg
  Cmd.mk cmd.Path cmd.Args (some Stream.osStdin) (some Stream.osStdout) (some Stream.osStderr)
    cmd.SysProcAttr cmd.Err

/-- The text printed by the first statement of `child`. -/
def childBanner (e : Env) (rest : List String) : String :=
  "Running Command Child (pid: " ++ toString e.pid ++ ") (uid: " ++ toString e.uid
    ++ ") (gid: " ++ toString e.gid ++ ") -> " ++ fmtStrings rest ++ "\n"

/-- The function `child` of `main.go`. The results of `syscall.Sethostname`,
`syscall.Chroot`, `syscall.Chdir` and `syscall.Unmount` are discarded;
`syscall.Mount` and `cmd.Run` go through `must`. In the call
`exec.Command(os.Args[2], os.Args[3:]...)` the compiled program checks the
bounds of the slice before those of the index, so with no command at all it
panics on the slice. -/
def child (e : Env) (w : World) : M Unit := func w do
  printf (childBanner e (← sliceFrom e.args 2))
  let _ ← call w (Effect.sethostname "kontainer")
  let _ ← call w (Effect.chroot "./rootfs")
  let _ ← call w (Effect.chdir "/")
  must (← call w (Effect.mount "proc" "proc" "proc" 0 ""))
  let arg ← sliceFrom e.args 3
  let cmd := childCmd e.lookPath (← index e.args 2) arg
  printf "Creating Kontainer\n"
  must (← cmd.Run w)
  printf "Exiting Kontainer\n"
  let _ ← call w (Effect.unmount "/proc" 0)

/-- The function `main` of `main.go`: dispatch on `os.Args[1]`. -/
def main (e : Env) (w : World) : M Unit := func w do
  let mode ← index e.args 1
  if mode = "run" then run e w
  else if mode = "child" then child e w
  else panic (Panic.str ("Unexpected Command -> " ++ mode ++ "\n"))

/-- Run a computation from the start of the process: no effect issued yet. -/
def exec (m : M Unit) : List Effect × Except Panic Unit :=
  match m (State.mk [] []) with
  | (s, r) => (s.trace, r)

/-- A world in which every call succeeds. -/
def allOk : World := fun _ => none

/-- The result of `must` on an error value, when nothing else fails. -/
def mustResult (r : Option Error) : Except Panic Unit :=
  match r with
  | some err => Except.error (Panic.err err)
  | none => Except.ok ()

/-- The call that creates the control group directory. -/
def cgMkdir : Effect := Effect.mkdir "/sys/fs/cgroup/pids/kontainer" 0o755
/-- The call that writes the limit on the number of processes. -/
def cgWriteMax : Effect := Effect.writeFile "/sys/fs/cgroup/pids/kontainer/pids.max" "20" 0o700
/-- The call that writes the release notification flag. -/
def cgWriteNotify : Effect :=
  Effect.writeFile "/sys/fs/cgroup/pids/kontainer/notify_on_release" "1" 0o700
/-- The call that writes the process id of the launcher into the membership file. -/
def cgWriteProcs (e : Env) : Effect :=
  Effect.writeFile "/sys/fs/cgroup/pids/kontainer/cgroup.procs" (strconv.Itoa e.pid) 0o700
/-- The call that removes the control group directory. -/
def cgRemove : Effect := Effect.remove "/sys/fs/cgroup/pids/kontainer"

/-- The commands of the `cmd.Run()` calls of a trace, in order. -/
def spawns : List Effect → List Cmd
  | [] => []
  | Effect.cmdRun c :: rest => c :: spawns rest
  | _ :: rest => spawns rest

/-- Whether an effect is a line printed on standard output. -/
def Effect.isPrint : Effect → Bool
  | Effect.print _ => true
  | _ => false

/-- The effects of a trace other than the lines printed on standard output. -/
def sysEffects (trace : List Effect) : List Effect :=
  trace.filter (fun eff => !eff.isPrint)

/-- Whether an effect creates a directory, writes a file or removes a path. -/
def Effect.isFileOp : Effect → Bool
  | Effect.mkdir _ _ => true
  | Effect.writeFile _ _ _ => true
  | Effect.remove _ => true
  | _ => false

/-- Whether the program passes the result of this kind of call to `must`:
`os.WriteFile`, `syscall.Mount` and `cmd.Run()`. -/
def Effect.isChecked : Effect → Bool
  | Effect.writeFile _ _ _ => true
  | Effect.mount _ _ _ _ _ => true
  | Effect.cmdRun _ => true
  | _ => false

/-- The four calls that `child` issues before it builds the command. -/
def jailSteps : List Effect :=
  [Effect.sethostname "kontainer", Effect.chroot "./rootfs", Effect.chdir "/",
    Effect.mount "proc" "proc" "proc" 0 ""]

/-! ## Concrete inputs -/

/-- A lookup that finds every program in `/bin`. -/
def binLookPath : String → String × Option Error := fun name => ("/bin/" ++ name, none)

/-- The launcher invoked by host root as `kontainer run /bin/false`. -/
def rootEnv : Env := Env.mk ["kontainer", "run", "/bin/false"] 4242 0 0 0 binLookPath

/-- The launcher invoked by user 1000 as `kontainer run echo hello`. -/
def userEnv : Env := Env.mk ["kontainer", "run", "echo", "hello"] 4242 1000 1000 1000 binLookPath

/-- The launcher invoked by user 1001 as `kontainer run echo hello`. -/
def otherUserEnv : Env := Env.mk ["kontainer", "run", "echo", "hello"] 4242 1001 1001 1001 binLookPath

/-- The launcher installed set-user-id root and invoked by user 1000: the
real user id is 1000 and the effective user id is 0. -/
def setuidEnv : Env := Env.mk ["kontainer", "run", "echo", "hello"] 4242 1000 0 1000 binLookPath

/-- The launcher started by root after its effective user id was lowered to
1000: the real user id is 0 and the effective user id is 1000. -/
def loweredEnv : Env := Env.mk ["kontainer", "run", "echo", "hello"] 4242 0 1000 0 binLookPath

/-- The entrant started as `kontainer child /bin/false`, process 1 and user 0
of its namespaces. -/
def childEnv : Env := Env.mk ["kontainer", "child", "/bin/false"] 1 0 0 0 binLookPath

/-- The entrant started as `kontainer child echo hello`, process 1 and user 0
of its namespaces. -/
def echoChildEnv : Env := Env.mk ["kontainer", "child", "echo", "hello"] 1 0 0 0 binLookPath

/-- An invocation with the mode `start`, which the program does not know. -/
def startEnv : Env := Env.mk ["kontainer", "start", "/bin/sh"] 4242 1000 1000 1000 binLookPath

/-- A world in which every command exits with status 1 and every other call succeeds. -/
def exitOne : World
  | Effect.cmdRun _ => some (Error.mk "exit status 1")
  | _ => none

/-- A world in which the write of `pids.max` is refused and every other call succeeds. -/
def maxDenied : World
  | Effect.writeFile path _ _ =>
    if path = "/sys/fs/cgroup/pids/kontainer/pids.max" then some (Error.mk "permission denied")
    else none
  | _ => none

/-- A world in which the write of `notify_on_release` is refused and every
other call succeeds. -/
def notifyMissing : World
  | Effect.writeFile path _ _ =>
    if path = "/sys/fs/cgroup/pids/kontainer/notify_on_release" then
      some (Error.mk "permission denied")
    else none
  | _ => none

/-- A world in which setting the hostname fails and every other call succeeds. -/
def hostnameDenied : World := fun eff =>
  if eff = Effect.sethostname "kontainer" then some (Error.mk "operation not permitted")
  else none

/-- A world in which the root change fails and every other call succeeds. -/
def chrootMissing : World := fun eff =>
  if eff = Effect.chroot "./rootfs" then some (Error.mk "no such file or directory")
  else none

/-- A world in which the unmount fails and every other call succeeds. -/
def unmountBusy : World := fun eff =>
  if eff = Effect.unmount "/proc" 0 then some (Error.mk "device or resource busy") else none

/-- A world in which the removal of the control group directory fails and every other call succeeds. -/
def removeBusy : World := fun eff =>
  if eff = Effect.remove "/sys/fs/cgroup/pids/kontainer" then
    some (Error.mk "device or resource busy")
  else none

/-! ## Evaluation lemmas -/

example : filepath.Join ["a/../..", "b/./c/"] = "../b/c" := by decide
example : filepath.Join ["/..", ""] = "/" := by decide
example : filepath.Join ["", "a//b", ""] = "a/b" := by decide
example : filepath.Join ["", ""] = "" := by decide
example : filepath.Base "/proc/self/exe" = "exe" := by decide
example : filepath.Base "echo" = "echo" := by decide
example : filepath.Base "bin/sh//" = "sh" := by decide
example : filepath.Base "//" = "/" := by decide
example : filepath.Base "" = "." := by decide
example : strconv.Itoa 4242 = "4242" := by decide
example : strconv.Itoa (-7) = "-7" := by decide
example : fmtStrings ["echo", "hello"] = "[echo hello]" := by decide
example : fmtStrings [] = "[]" := by decide
example : syscall.CLONE_NEWUTS ||| syscall.CLONE_NEWPID ||| syscall.CLONE_NEWNS |||
    syscall.CLONE_NEWUSER = 0x34020000 := by decide

theorem join_pids : filepath.Join ["/sys/fs/cgroup/", "pids"] = "/sys/fs/cgroup/pids" := by
  decide

theorem join_dir :
    filepath.Join ["/sys/fs/cgroup/pids", "kontainer"] = "/sys/fs/cgroup/pids/kontainer" := by
  decide

theorem join_max : filepath.Join ["/sys/fs/cgroup/pids", "kontainer/pids.max"]
    = "/sys/fs/cgroup/pids/kontainer/pids.max" := by
  decide

theorem join_notify : filepath.Join ["/sys/fs/cgroup/pids", "kontainer/notify_on_release"]
    = "/sys/fs/cgroup/pids/kontainer/notify_on_release" := by
  decide

theorem join_procs : filepath.Join ["/sys/fs/cgroup/pids", "kontainer/cgroup.procs"]
    = "/sys/fs/cgroup/pids/kontainer/cgroup.procs" := by
  decide

theorem base_self_exe : filepath.Base "/proc/self/exe" ≠ "/proc/self/exe" := by
  decide

/-- The command built by `run`, field by field: no lookup takes place, as the
name of the executable has separators. -/
theorem runCmd_eq (e : Env) (rest : List String) :
    runCmd e rest = Cmd.mk "/proc/self/exe" ("/proc/self/exe" :: "child" :: rest)
      (some Stream.osStdin) (some Stream.osStdout) (some Stream.osStderr)
      (some (SysProcAttr.mk 0x34020000 0x20000 [SysProcIDMap.mk 0 e.uid 1]
        [SysProcIDMap.mk 0 e.gid 1])) none := by
  simp [runCmd, exec.Command, base_self_exe]
  decide

theorem runCmd_startError (e : Env) (rest : List String) :
    (runCmd e rest).startError = none := by
  rw [runCmd_eq]
  simp [Cmd.startError]

theorem run_of_started (w : World) (c : Cmd) (h : c.startError = none) :
    c.Run w = call w (Effect.cmdRun c) := by
  unfold Cmd.Run
  rw [h]

theorem run_of_not_started (w : World) (c : Cmd) (err : Error)
    (h : c.startError = some err) : c.Run w = pure (some err) := by
  unfold Cmd.Run
  rw [h]

theorem main_run_nonroot (e : Env) (w : World) (prog : String) (rest : List String)
    (ha : e.args = prog :: "run" :: rest) (hu : e.uid ≠ 0) :
    exec (main e w) = ([Effect.print (parentBanner e rest), Effect.cmdRun (runCmd e rest)],
      mustResult (w (Effect.cmdRun (runCmd e rest)))) := by
  cases hw : w (Effect.cmdRun (runCmd e rest)) <;>
    simp [exec, main, run, func, index, sliceFrom, ha, bind, M.bind, pure, M.pure, printf,
      call, must, panic, runDefers, mustResult, run_of_started, runCmd_startError, hu, hw]

theorem main_run_root_fail1 (e : Env) (w : World) (prog : String) (rest : List String)
    (ha : e.args = prog :: "run" :: rest) (hu : e.uid = 0) (err : Error)
    (h1 : w cgWriteMax = some err) :
    exec (main e w) = ([Effect.print (parentBanner e rest), cgMkdir, cgWriteMax],
      Except.error (Panic.err err)) := by
  simp only [cgWriteMax] at h1
  simp [exec, main, run, child, setupCG, teardownCG, runDeferred, func, index, sliceFrom,
    bind, M.bind, pure, M.pure, printf, call, must, panic, defer, runDefers, mustResult,
    run_of_started, run_of_not_started, runCmd_startError,
    join_pids, join_dir, join_max, join_notify, join_procs, cgMkdir, cgWriteMax, cgWriteNotify,
    cgWriteProcs, cgRemove, ha, hu, h1]

theorem main_run_root_fail2 (e : Env) (w : World) (prog : String) (rest : List String)
    (ha : e.args = prog :: "run" :: rest) (hu : e.uid = 0) (err : Error)
    (h1 : w cgWriteMax = none) (h2 : w cgWriteNotify = some err) :
    exec (main e w) = ([Effect.print (parentBanner e rest), cgMkdir, cgWriteMax, cgWriteNotify],
      Except.error (Panic.err err)) := by
  simp only [cgWriteMax, cgWriteNotify] at h1 h2
  simp [exec, main, run, child, setupCG, teardownCG, runDeferred, func, index, sliceFrom,
    bind, M.bind, pure, M.pure, printf, call, must, panic, defer, runDefers, mustResult,
    run_of_started, run_of_not_started, runCmd_startError,
    join_pids, join_dir, join_max, join_notify, join_procs, cgMkdir, cgWriteMax, cgWriteNotify,
    cgWriteProcs, cgRemove, ha, hu, h1, h2]

theorem main_run_root_fail3 (e : Env) (w : World) (prog : String) (rest : List String)
    (ha : e.args = prog :: "run" :: rest) (hu : e.uid = 0) (err : Error)
    (h1 : w cgWriteMax = none) (h2 : w cgWriteNotify = none)
    (h3 : w (cgWriteProcs e) = some err) :
    exec (main e w) = ([Effect.print (parentBanner e rest), cgMkdir, cgWriteMax, cgWriteNotify,
      cgWriteProcs e], Except.error (Panic.err err)) := by
  simp only [cgWriteMax, cgWriteNotify, cgWriteProcs] at h1 h2 h3
  simp [exec, main, run, child, setupCG, teardownCG, runDeferred, func, index, sliceFrom,
    bind, M.bind, pure, M.pure, printf, call, must, panic, defer, runDefers, mustResult,
    run_of_started, run_of_not_started, runCmd_startError,
    join_pids, join_dir, join_max, join_notify, join_procs, cgMkdir, cgWriteMax, cgWriteNotify,
    cgWriteProcs, cgRemove, ha, hu, h1, h2, h3]

theorem main_run_root_ok (e : Env) (w : World) (prog : String) (rest : List String)
    (ha : e.args = prog :: "run" :: rest) (hu : e.uid = 0)
    (h1 : w cgWriteMax = none) (h2 : w cgWriteNotify = none) (h3 : w (cgWriteProcs e) = none) :
    exec (main e w) = ([Effect.print (parentBanner e rest), cgMkdir, cgWriteMax, cgWriteNotify,
      cgWriteProcs e, Effect.cmdRun (runCmd e rest), cgRemove],
      mustResult (w (Effect.cmdRun (runCmd e rest)))) := by
  simp only [cgWriteMax, cgWriteNotify, cgWriteProcs] at h1 h2 h3
  cases hw : w (Effect.cmdRun (runCmd e rest)) <;>
    simp [exec, main, run, child, setupCG, teardownCG, runDeferred, func, index, sliceFrom,
    bind, M.bind, pure, M.pure, printf, call, must, panic, defer, runDefers, mustResult,
    run_of_started, run_of_not_started, runCmd_startError,
    join_pids, join_dir, join_max, join_notify, join_procs, cgMkdir, cgWriteMax, cgWriteNotify,
    cgWriteProcs, cgRemove, ha, hu, h1, h2, h3, hw]

theorem main_child_mount_fail (e : Env) (w : World) (prog : String) (rest : List String) (err : Error)
    (ha : e.args = prog :: "child" :: rest)
    (hm : w (Effect.mount "proc" "proc" "proc" 0 "") = some err) :
    exec (main e w) = (Effect.print (childBanner e rest) :: jailSteps,
      Except.error (Panic.err err)) := by
  simp [exec, main, run, child, setupCG, teardownCG, runDeferred, func, index, sliceFrom,
    bind, M.bind, pure, M.pure, printf, call, must, panic, defer, runDefers, mustResult,
    run_of_started, run_of_not_started, runCmd_startError,
    join_pids, join_dir, join_max, join_notify, join_procs, cgMkdir, cgWriteMax, cgWriteNotify,
    cgWriteProcs, cgRemove, jailSteps, ha, hm]

theorem main_child_no_command (e : Env) (w : World) (prog : String)
    (ha : e.args = [prog, "child"])
    (hm : w (Effect.mount "proc" "proc" "proc" 0 "") = none) :
    exec (main e w) = (Effect.print (childBanner e []) :: jailSteps,
      Except.error (Panic.sliceOutOfRange 3 2)) := by
  simp [exec, main, run, child, setupCG, teardownCG, runDeferred, func, index, sliceFrom,
    bind, M.bind, pure, M.pure, printf, call, must, panic, defer, runDefers, mustResult,
    run_of_started, run_of_not_started, runCmd_startError,
    join_pids, join_dir, join_max, join_notify, join_procs, cgMkdir, cgWriteMax, cgWriteNotify,
    cgWriteProcs, cgRemove, jailSteps, ha, hm]

theorem main_child_not_started (e : Env) (w : World) (prog : String) (c : String)
    (as : List String) (err : Error)
    (ha : e.args = prog :: "child" :: c :: as)
    (hm : w (Effect.mount "proc" "proc" "proc" 0 "") = none)
    (hs : (childCmd e.lookPath c as).startError = some err) :
    exec (main e w) = (Effect.print (childBanner e (c :: as)) :: jailSteps ++
      [Effect.print "Creating Kontainer\n"],
      Except.error (Panic.err err)) := by
  simp [exec, main, run, child, setupCG, teardownCG, runDeferred, func, index, sliceFrom,
    bind, M.bind, pure, M.pure, printf, call, must, panic, defer, runDefers, mustResult,
    run_of_started, run_of_not_started, runCmd_startError,
    join_pids, join_dir, join_max, join_notify, join_procs, cgMkdir, cgWriteMax, cgWriteNotify,
    cgWriteProcs, cgRemove, jailSteps, ha, hm, hs]

theorem main_child_command_fail (e : Env) (w : World) (prog : String) (c : String)
    (as : List String) (err : Error)
    (ha : e.args = prog :: "child" :: c :: as)
    (hm : w (Effect.mount "proc" "proc" "proc" 0 "") = none)
    (hs : (childCmd e.lookPath c as).startError = none)
    (hc : w (Effect.cmdRun (childCmd e.lookPath c as)) = some err) :
    exec (main e w) = (Effect.print (childBanner e (c :: as)) :: jailSteps ++
      [Effect.print "Creating Kontainer\n", Effect.cmdRun (childCmd e.lookPath c as)],
      Except.error (Panic.err err)) := by
  simp [exec, main, run, child, setupCG, teardownCG, runDeferred, func, index, sliceFrom,
    bind, M.bind, pure, M.pure, printf, call, must, panic, defer, runDefers, mustResult,
    run_of_started, run_of_not_started, runCmd_startError,
    join_pids, join_dir, join_max, join_notify, join_procs, cgMkdir, cgWriteMax, cgWriteNotify,
    cgWriteProcs, cgRemove, jailSteps, ha, hm, hs, hc]

theorem main_child_ok (e : Env) (w : World) (prog : String) (c : String) (as : List String)
    (ha : e.args = prog :: "child" :: c :: as)
    (hm : w (Effect.mount "proc" "proc" "proc" 0 "") = none)
    (hs : (childCmd e.lookPath c as).startError = none)
    (hc : w (Effect.cmdRun (childCmd e.lookPath c as)) = none) :
    exec (main e w) = (Effect.print (childBanner e (c :: as)) :: jailSteps ++
      [Effect.print "Creating Kontainer\n", Effect.cmdRun (childCmd e.lookPath c as),
        Effect.print "Exiting Kontainer\n", Effect.unmount "/proc" 0],
      Except.ok ()) := by
  simp [exec, main, run, child, setupCG, teardownCG, runDeferred, func, index, sliceFrom,
    bind, M.bind, pure, M.pure, printf, call, must, panic, defer, runDefers, mustResult,
    run_of_started, run_of_not_started, runCmd_startError,
    join_pids, join_dir, join_max, join_notify, join_procs, cgMkdir, cgWriteMax, cgWriteNotify,
    cgWriteProcs, cgRemove, jailSteps, ha, hm, hs, hc]

/-- The command built by `child` for a name with a separator: the name is the
path of the program. -/
theorem childCmd_of_separator (lookPath : String → String × Option Error) (c : String)
    (as : List String) (hsep : filepath.Base c ≠ c) :
    childCmd lookPath c as = Cmd.mk c (c :: as) (some Stream.osStdin) (some Stream.osStdout)
      (some Stream.osStderr) none none := by
  simp [childCmd, exec.Command, hsep]

/-- The command built by `child` for a name without separator that the lookup
finds: the path found is the path of the program. -/
theorem childCmd_of_lookup (lookPath : String → String × Option Error) (c path : String)
    (as : List String) (hbare : filepath.Base c = c) (hl : lookPath c = (path, none))
    (hne : path ≠ "") :
    childCmd lookPath c as = Cmd.mk path (c :: as) (some Stream.osStdin)
      (some Stream.osStdout) (some Stream.osStderr) none none := by
  simp [childCmd, exec.Command, hbare, hl, hne]

theorem main_no_mode_nil (e : Env) (w : World) (ha : e.args = []) :
    exec (main e w) = ([], Except.error (Panic.indexOutOfRange 1 0)) := by
  simp [exec, main, run, child, setupCG, teardownCG, runDeferred, func, index, sliceFrom,
    bind, M.bind, pure, M.pure, printf, call, must, panic, defer, runDefers, mustResult,
    run_of_started, run_of_not_started, runCmd_startError,
    join_pids, join_dir, join_max, join_notify, join_procs, cgMkdir, cgWriteMax, cgWriteNotify,
    cgWriteProcs, cgRemove, ha]

theorem main_no_mode_one (e : Env) (w : World) (prog : String) (ha : e.args = [prog]) :
    exec (main e w) = ([], Except.error (Panic.indexOutOfRange 1 1)) := by
  simp [exec, main, run, child, setupCG, teardownCG, runDeferred, func, index, sliceFrom,
    bind, M.bind, pure, M.pure, printf, call, must, panic, defer, runDefers, mustResult,
    run_of_started, run_of_not_started, runCmd_startError,
    join_pids, join_dir, join_max, join_notify, join_procs, cgMkdir, cgWriteMax, cgWriteNotify,
    cgWriteProcs, cgRemove, ha]

theorem main_unknown_mode (e : Env) (w : World) (prog mode : String) (rest : List String)
    (ha : e.args = prog :: mode :: rest) (hr : mode ≠ "run") (hc : mode ≠ "child") :
    exec (main e w) = ([], Except.error (Panic.str ("Unexpected Command -> " ++ mode ++ "\n"))) := by
  simp [exec, main, run, child, setupCG, teardownCG, runDeferred, func, index, sliceFrom,
    bind, M.bind, pure, M.pure, printf, call, must, panic, defer, runDefers, mustResult,
    run_of_started, run_of_not_started, runCmd_startError,
    join_pids, join_dir, join_max, join_notify, join_procs, cgMkdir, cgWriteMax, cgWriteNotify,
    cgWriteProcs, cgRemove, ha, hr, hc]

/-- The run of the program depends on the world only through the answers to
the calls whose result goes to `must`. -/
theorem exec_main_congr (e : Env) (w w' : World)
    (h : ∀ eff, eff.isChecked = true → w eff = w' eff) :
    exec (main e w) = exec (main e w') := by
  rcases hargs : e.args with _ | ⟨prog, _ | ⟨mode, rest⟩⟩
  · rw [main_no_mode_nil e w hargs, main_no_mode_nil e w' hargs]
  · rw [main_no_mode_one e w prog hargs, main_no_mode_one e w' prog hargs]
  · by_cases hr : mode = "run"
    · subst hr
      have hs := h (Effect.cmdRun (runCmd e rest)) rfl
      by_cases hu : e.uid = 0
      · have e1 := h cgWriteMax rfl
        have e2 := h cgWriteNotify rfl
        have e3 := h (cgWriteProcs e) rfl
        rcases h1 : w cgWriteMax with _ | err
        · rcases h2 : w cgWriteNotify with _ | err
          · rcases h3 : w (cgWriteProcs e) with _ | err
            · rw [main_run_root_ok e w prog rest hargs hu h1 h2 h3,
                main_run_root_ok e w' prog rest hargs hu (e1 ▸ h1) (e2 ▸ h2) (e3 ▸ h3), hs]
            · rw [main_run_root_fail3 e w prog rest hargs hu err h1 h2 h3,
                main_run_root_fail3 e w' prog rest hargs hu err (e1 ▸ h1) (e2 ▸ h2) (e3 ▸ h3)]
          · rw [main_run_root_fail2 e w prog rest hargs hu err h1 h2,
              main_run_root_fail2 e w' prog rest hargs hu err (e1 ▸ h1) (e2 ▸ h2)]
        · rw [main_run_root_fail1 e w prog rest hargs hu err h1,
            main_run_root_fail1 e w' prog rest hargs hu err (e1 ▸ h1)]
      · rw [main_run_nonroot e w prog rest hargs hu, main_run_nonroot e w' prog rest hargs hu, hs]
    · by_cases hc : mode = "child"
      · subst hc
        have em := h (Effect.mount "proc" "proc" "proc" 0 "") rfl
        rcases hm : w (Effect.mount "proc" "proc" "proc" 0 "") with _ | err
        · rcases rest with _ | ⟨c, as⟩
          · rw [main_child_no_command e w prog hargs hm,
              main_child_no_command e w' prog hargs (em ▸ hm)]
          · rcases hs : (childCmd e.lookPath c as).startError with _ | err
            · have ec := h (Effect.cmdRun (childCmd e.lookPath c as)) rfl
              rcases hcmd : w (Effect.cmdRun (childCmd e.lookPath c as)) with _ | err
              · rw [main_child_ok e w prog c as hargs hm hs hcmd,
                  main_child_ok e w' prog c as hargs (em ▸ hm) hs (ec ▸ hcmd)]
              · rw [main_child_command_fail e w prog c as err hargs hm hs hcmd,
                  main_child_command_fail e w' prog c as err hargs (em ▸ hm) hs (ec ▸ hcmd)]
            · rw [main_child_not_started e w prog c as err hargs hm hs,
                main_child_not_started e w' prog c as err hargs (em ▸ hm) hs]
        · rw [main_child_mount_fail e w prog rest err hargs hm,
            main_child_mount_fail e w' prog rest err hargs (em ▸ hm)]
      · rw [main_unknown_mode e w prog mode rest hargs hr hc,
          main_unknown_mode e w' prog mode rest hargs hr hc]

/-- The shape of the trace of a launcher run by user 0: the banner, the
creation of the directory and the first write, and then one of four tails. -/
theorem main_run_root_shape (e : Env) (w : World) (prog : String) (rest : List String)
    (ha : e.args = prog :: "run" :: rest) (hu : e.uid = 0) :
    ∃ tail, (exec (main e w)).1
        = Effect.print (parentBanner e rest) :: cgMkdir :: cgWriteMax :: tail ∧
      (tail = [] ∨ tail = [cgWriteNotify] ∨ tail = [cgWriteNotify, cgWriteProcs e] ∨
        tail = [cgWriteNotify, cgWriteProcs e, Effect.cmdRun (runCmd e rest), cgRemove]) := by
  rcases h1 : w cgWriteMax with _ | err
  · rcases h2 : w cgWriteNotify with _ | err
    · rcases h3 : w (cgWriteProcs e) with _ | err
      · exact ⟨_, by rw [main_run_root_ok e w prog rest ha hu h1 h2 h3], by simp⟩
      · exact ⟨_, by rw [main_run_root_fail3 e w prog rest ha hu err h1 h2 h3], by simp⟩
    · exact ⟨_, by rw [main_run_root_fail2 e w prog rest ha hu err h1 h2], by simp⟩
  · exact ⟨_, by rw [main_run_root_fail1 e w prog rest ha hu err h1], by simp⟩

/-- A launcher issues at most one spawn, and of the command built by `run`. -/
theorem spawns_main_run (e : Env) (w : World) (prog : String) (rest : List String)
    (ha : e.args = prog :: "run" :: rest) :
    spawns (exec (main e w)).1 = [] ∨ spawns (exec (main e w)).1 = [runCmd e rest] := by
  by_cases hu : e.uid = 0
  · obtain ⟨tail, ht, hcases⟩ := main_run_root_shape e w prog rest ha hu
    rw [ht]
    rcases hcases with h | h | h | h <;>
      simp [h, spawns, cgMkdir, cgWriteMax, cgWriteNotify, cgWriteProcs, cgRemove]
  · rw [main_run_nonroot e w prog rest ha hu]
    simp [spawns]

/-! ## Properties of the program -/

/-- C1: for every first argument other than `run` and `child`, `main` panics
with the message naming the argument, and the effect trace is empty: nothing
is printed, created, written, removed, spawned, mounted or changed. -/
theorem C1_unknown_mode_aborts_without_effect (e : Env) (w : World) (prog mode : String)
    (rest : List String) (ha : e.args = prog :: mode :: rest)
    (hr : mode ≠ "run") (hc : mode ≠ "child") :
    exec (main e w)
      = ([], Except.error (Panic.str ("Unexpected Command -> " ++ mode ++ "\n"))) :=
  main_unknown_mode e w prog mode rest ha hr hc

/-- The invocation `kontainer start /bin/sh` issues no effect and panics. -/
theorem C1_unknown_mode_witness :
    ("start" ≠ "run" ∧ "start" ≠ "child") ∧
    exec (main startEnv allOk)
      = ([], Except.error (Panic.str "Unexpected Command -> start\n")) :=
  ⟨by decide, C1_unknown_mode_aborts_without_effect startEnv allOk "kontainer" "start"
    ["/bin/sh"] rfl (by decide) (by decide)⟩

/-- C2: when the launcher runs as user 0 and the three control group writes
succeed (whatever `os.Mkdir` returned), the trace is the banner, the
creation, the three writes, the spawn and then the removal of
`/sys/fs/cgroup/pids/kontainer`: the removal comes after the child, and it is
the last effect both when the child succeeds (the launcher returns) and when
`cmd.Run()` returns an error (the launcher panics with that error). -/
theorem C2_cgroup_removed_after_child (e : Env) (w : World) (prog : String)
    (rest : List String) (ha : e.args = prog :: "run" :: rest) (hu : e.uid = 0)
    (h1 : w cgWriteMax = none) (h2 : w cgWriteNotify = none) (h3 : w (cgWriteProcs e) = none) :
    (exec (main e w)).1 = [Effect.print (parentBanner e rest), cgMkdir, cgWriteMax,
      cgWriteNotify, cgWriteProcs e, Effect.cmdRun (runCmd e rest),
      Effect.remove "/sys/fs/cgroup/pids/kontainer"] ∧
    (w (Effect.cmdRun (runCmd e rest)) = none → (exec (main e w)).2 = Except.ok ()) ∧
    (∀ err, w (Effect.cmdRun (runCmd e rest)) = some err →
      (exec (main e w)).2 = Except.error (Panic.err err)) := by
  rw [main_run_root_ok e w prog rest ha hu h1 h2 h3]
  refine ⟨rfl, ?_, ?_⟩
  · intro h
    simp [mustResult, h]
  · intro err h
    simp [mustResult, h]

/-- Host root running `/bin/false`, which exits with status 1: the removal is the last
effect and the launcher panics with the error of the child. -/
theorem C2_cgroup_removed_witness :
    (exec (main rootEnv exitOne)).1 = [Effect.print (parentBanner rootEnv ["/bin/false"]),
      cgMkdir, cgWriteMax, cgWriteNotify, cgWriteProcs rootEnv,
      Effect.cmdRun (runCmd rootEnv ["/bin/false"]),
      Effect.remove "/sys/fs/cgroup/pids/kontainer"] ∧
    (exec (main rootEnv exitOne)).2 = Except.error (Panic.err (Error.mk "exit status 1")) :=
  have h := C2_cgroup_removed_after_child rootEnv exitOne "kontainer" ["/bin/false"]
    rfl rfl rfl rfl rfl
  ⟨h.1, h.2.2 (Error.mk "exit status 1") rfl⟩

/-- C3 (the code at the failing input): the entrant started as
`kontainer child /bin/false`, with every call succeeding and the command
exiting with status 1, panics in `must(cmd.Run())`; the last effect is the
command, and no unmount of `/proc` is issued. -/
theorem C3_unmount_skipped_when_command_fails :
    exec (main childEnv exitOne)
      = ([Effect.print "Running Command Child (pid: 1) (uid: 0) (gid: 0) -> [/bin/false]\n",
          Effect.sethostname "kontainer", Effect.chroot "./rootfs", Effect.chdir "/",
          Effect.mount "proc" "proc" "proc" 0 "", Effect.print "Creating Kontainer\n",
          Effect.cmdRun (Cmd.mk "/bin/false" ["/bin/false"] (some Stream.osStdin)
            (some Stream.osStdout) (some Stream.osStderr) none none)],
        Except.error (Panic.err (Error.mk "exit status 1"))) ∧
    Effect.unmount "/proc" 0 ∉ (exec (main childEnv exitOne)).1 := by
  decide

/-- C4 (counterexample): invoked by host root as `kontainer run /bin/false`
in a world where the write of `pids.max` is refused, the launcher panics in
`setupCG` and issues no spawn at all. -/
theorem C4_no_spawn_when_cgroup_write_fails :
    rootEnv.args = ["kontainer", "run", "/bin/false"] ∧ rootEnv.uid = 0 ∧
    spawns (exec (main rootEnv maxDenied)).1 = [] ∧
    (exec (main rootEnv maxDenied)).2
      = Except.error (Panic.err (Error.mk "permission denied")) := by
  decide

/-- C4 (amended): for every invocation in mode `run` with command `c` and
arguments `as` in which the control group does not stop the launcher (the
user id is not 0, or the three control group writes succeed), exactly one
spawn is issued, of `/proc/self/exe`, and the arguments after the name of the
executable are exactly `child`, `c` and then `as`. -/
theorem C4_single_spawn_with_child_args (e : Env) (w : World) (prog c : String)
    (as : List String) (ha : e.args = prog :: "run" :: c :: as)
    (hcg : e.uid ≠ 0 ∨
      (w cgWriteMax = none ∧ w cgWriteNotify = none ∧ w (cgWriteProcs e) = none)) :
    ∃ cmd, spawns (exec (main e w)).1 = [cmd] ∧ cmd.Path = "/proc/self/exe" ∧
      cmd.Args = "/proc/self/exe" :: (["child", c] ++ as) := by
  refine ⟨runCmd e (c :: as), ?_, rfl, rfl⟩
  by_cases hu : e.uid = 0
  · rcases hcg with h | ⟨h1, h2, h3⟩
    · exact absurd hu h
    · rw [main_run_root_ok e w prog (c :: as) ha hu h1 h2 h3]
      simp [spawns, cgMkdir, cgWriteMax, cgWriteNotify, cgWriteProcs, cgRemove]
  · rw [main_run_nonroot e w prog (c :: as) ha hu]
    simp [spawns]

/-- User 1000 running `echo hello`: one spawn, with `child`, `echo`, `hello`. -/
theorem C4_single_spawn_witness :
    ∃ cmd, spawns (exec (main userEnv exitOne)).1 = [cmd] ∧ cmd.Path = "/proc/self/exe" ∧
      cmd.Args = ["/proc/self/exe", "child", "echo", "hello"] :=
  C4_single_spawn_with_child_args userEnv exitOne "kontainer" "echo" ["hello"] rfl
    (Or.inl (by decide))

/-- C5: the command built by `run` for an invoker with user id `e.uid` and
group id `e.gid` has a UID map of the single entry (0, `e.uid`, 1) and a GID
map of the single entry (0, `e.gid`, 1); every spawn a launcher issues is of
that command; and two invokers with different user ids (group ids) get
different UID (GID) maps. -/
theorem C5_id_mappings (e e' : Env) (rest rest' : List String) :
    (runCmd e rest).SysProcAttr.map SysProcAttr.UidMappings
      = some [SysProcIDMap.mk 0 e.uid 1] ∧
    (runCmd e rest).SysProcAttr.map SysProcAttr.GidMappings
      = some [SysProcIDMap.mk 0 e.gid 1] ∧
    (∀ (w : World) (prog : String), e.args = prog :: "run" :: rest →
      ∀ cmd ∈ spawns (exec (main e w)).1, cmd = runCmd e rest) ∧
    (e.uid ≠ e'.uid → (runCmd e rest).SysProcAttr.map SysProcAttr.UidMappings
      ≠ (runCmd e' rest').SysProcAttr.map SysProcAttr.UidMappings) ∧
    (e.gid ≠ e'.gid → (runCmd e rest).SysProcAttr.map SysProcAttr.GidMappings
      ≠ (runCmd e' rest').SysProcAttr.map SysProcAttr.GidMappings) := by
  refine ⟨rfl, rfl, ?_, ?_, ?_⟩
  · intro w prog ha cmd hmem
    rcases spawns_main_run e w prog rest ha with h | h
    · rw [h] at hmem
      simp at hmem
    · rw [h] at hmem
      simpa using hmem
  · intro hne h
    simp [runCmd] at h
    exact hne h
  · intro hne h
    simp [runCmd] at h
    exact hne h

/-- Users 1000 and 1001 get the maps (0, 1000, 1) and (0, 1001, 1), which differ. -/
theorem C5_id_mappings_witness :
    (runCmd userEnv ["echo", "hello"]).SysProcAttr.map SysProcAttr.UidMappings
      = some [SysProcIDMap.mk 0 1000 1] ∧
    (runCmd otherUserEnv ["echo", "hello"]).SysProcAttr.map SysProcAttr.UidMappings
      = some [SysProcIDMap.mk 0 1001 1] ∧
    spawns (exec (main userEnv allOk)).1 = [runCmd userEnv ["echo", "hello"]] ∧
    (runCmd userEnv ["echo", "hello"]).SysProcAttr.map SysProcAttr.UidMappings
      ≠ (runCmd otherUserEnv ["echo", "hello"]).SysProcAttr.map SysProcAttr.UidMappings :=
  have h := C5_id_mappings userEnv otherUserEnv ["echo", "hello"] ["echo", "hello"]
  ⟨h.1, rfl, by decide, h.2.2.2.1 (by decide)⟩

/-- C6 (counterexample): a launcher whose effective user id is 0 and whose
real user id is 1000 creates no control group, and a launcher whose effective
user id is 1000 and whose real user id is 0 creates and writes it: the
program tests `os.Getuid()`, the real user id. -/
theorem C6_effective_uid_does_not_decide :
    (setuidEnv.euid = 0 ∧
      exec (main setuidEnv allOk)
        = ([Effect.print (parentBanner setuidEnv ["echo", "hello"]),
            Effect.cmdRun (runCmd setuidEnv ["echo", "hello"])], Except.ok ())) ∧
    (loweredEnv.euid ≠ 0 ∧
      Effect.mkdir "/sys/fs/cgroup/pids/kontainer" 0o755 ∈ (exec (main loweredEnv allOk)).1 ∧
      Effect.writeFile "/sys/fs/cgroup/pids/kontainer/pids.max" "20" 0o700
        ∈ (exec (main loweredEnv allOk)).1) := by
  decide

/-- C6 (amended): control group provisioning occurs if and only if the real
user id of the launcher (`os.Getuid()`) is 0. The creation of
`/sys/fs/cgroup/pids/kontainer` is in the trace exactly when the user id is 0;
then the trace starts with the banner, the creation and the write of
`pids.max`, and whenever a spawn is in the trace, the creation and the three
writes come before it; when the user id is not 0, the trace holds no
directory creation, no file write and no removal. -/
theorem C6_provisioning_iff_real_root (e : Env) (w : World) (prog : String)
    (rest : List String) (ha : e.args = prog :: "run" :: rest) :
    (Effect.mkdir "/sys/fs/cgroup/pids/kontainer" 0o755 ∈ (exec (main e w)).1 ↔ e.uid = 0) ∧
    (e.uid = 0 →
      (exec (main e w)).1.take 3 = [Effect.print (parentBanner e rest),
        Effect.mkdir "/sys/fs/cgroup/pids/kontainer" 0o755,
        Effect.writeFile "/sys/fs/cgroup/pids/kontainer/pids.max" "20" 0o700] ∧
      ∀ cmd, Effect.cmdRun cmd ∈ (exec (main e w)).1 →
        (exec (main e w)).1 = [Effect.print (parentBanner e rest), cgMkdir, cgWriteMax,
          cgWriteNotify, cgWriteProcs e, Effect.cmdRun (runCmd e rest), cgRemove]) ∧
    (e.uid ≠ 0 → ∀ eff ∈ (exec (main e w)).1, eff.isFileOp = false) := by
  by_cases hu : e.uid = 0
  · obtain ⟨tail, ht, hcases⟩ := main_run_root_shape e w prog rest ha hu
    rw [ht]
    refine ⟨?_, ?_, fun h => absurd hu h⟩
    · simp [hu, cgMkdir]
    · intro _
      refine ⟨by simp [cgMkdir, cgWriteMax], ?_⟩
      intro cmd hmem
      rcases hcases with h | h | h | h
      · simp [h, cgMkdir, cgWriteMax] at hmem
      · simp [h, cgMkdir, cgWriteMax, cgWriteNotify] at hmem
      · simp [h, cgMkdir, cgWriteMax, cgWriteNotify, cgWriteProcs] at hmem
      · rw [h]
  · rw [main_run_nonroot e w prog rest ha hu]
    refine ⟨?_, fun h => absurd h hu, ?_⟩
    · simp [hu]
    · intro _ eff hmem
      simp at hmem
      rcases hmem with h | h <;> simp [h, Effect.isFileOp]

/-- Host root provisions the control group before the spawn; user 1000 issues no
file operation. -/
theorem C6_provisioning_witness :
    (Effect.mkdir "/sys/fs/cgroup/pids/kontainer" 0o755 ∈ (exec (main rootEnv allOk)).1) ∧
    (exec (main rootEnv allOk)).1 = [Effect.print (parentBanner rootEnv ["/bin/false"]),
      cgMkdir, cgWriteMax, cgWriteNotify, cgWriteProcs rootEnv,
      Effect.cmdRun (runCmd rootEnv ["/bin/false"]), cgRemove] ∧
    (∀ eff ∈ (exec (main userEnv allOk)).1, eff.isFileOp = false) :=
  have hr := C6_provisioning_iff_real_root rootEnv allOk "kontainer" ["/bin/false"] rfl
  have hn := C6_provisioning_iff_real_root userEnv allOk "kontainer" ["echo", "hello"] rfl
  ⟨hr.1.2 rfl, (hr.2.1 rfl).2 (runCmd rootEnv ["/bin/false"]) (by decide),
    hn.2.2 (by decide)⟩

/-- C7 (the code at the failing input): the entrant started as
`kontainer child echo hello` in a world where `chroot` to `./rootfs` fails
(the directory is missing) does not stop: it goes on with `chdir` to `/`, the
mount and the command, which runs outside the root it was meant to be
confined to, and it returns normally. The same happens when setting the
hostname fails. Neither result reaches `must`, unlike that of the mount. -/
theorem C7_entrant_continues_after_failed_step :
    (chrootMissing (Effect.chroot "./rootfs")
        = some (Error.mk "no such file or directory") ∧
      exec (main echoChildEnv chrootMissing)
        = ([Effect.print "Running Command Child (pid: 1) (uid: 0) (gid: 0) -> [echo hello]\n",
            Effect.sethostname "kontainer", Effect.chroot "./rootfs", Effect.chdir "/",
            Effect.mount "proc" "proc" "proc" 0 "", Effect.print "Creating Kontainer\n",
            Effect.cmdRun (Cmd.mk "/bin/echo" ["echo", "hello"] (some Stream.osStdin)
              (some Stream.osStdout) (some Stream.osStderr) none none),
            Effect.print "Exiting Kontainer\n", Effect.unmount "/proc" 0],
          Except.ok ())) ∧
    (hostnameDenied (Effect.sethostname "kontainer")
        = some (Error.mk "operation not permitted") ∧
      exec (main echoChildEnv hostnameDenied)
        = ([Effect.print "Running Command Child (pid: 1) (uid: 0) (gid: 0) -> [echo hello]\n",
            Effect.sethostname "kontainer", Effect.chroot "./rootfs", Effect.chdir "/",
            Effect.mount "proc" "proc" "proc" 0 "", Effect.print "Creating Kontainer\n",
            Effect.cmdRun (Cmd.mk "/bin/echo" ["echo", "hello"] (some Stream.osStdin)
              (some Stream.osStdout) (some Stream.osStderr) none none),
            Effect.print "Exiting Kontainer\n", Effect.unmount "/proc" 0],
          Except.ok ())) := by
  decide

/-- C8 (the code at the failing input): invoked by host root as
`kontainer run /bin/false` in a world where the directory is created and the
write of `notify_on_release` fails, the launcher panics inside `setupCG`,
before `defer teardownCG()` is reached: the directory was created, and the
launcher ends without issuing its removal. -/
theorem C8_directory_left_when_write_fails :
    notifyMissing (Effect.mkdir "/sys/fs/cgroup/pids/kontainer" 0o755) = none ∧
    exec (main rootEnv notifyMissing)
      = ([Effect.print "Running Command Parent (pid: 4242) (uid: 0) (gid: 0) -> [/bin/false]\n",
          Effect.mkdir "/sys/fs/cgroup/pids/kontainer" 0o755,
          Effect.writeFile "/sys/fs/cgroup/pids/kontainer/pids.max" "20" 0o700,
          Effect.writeFile "/sys/fs/cgroup/pids/kontainer/notify_on_release" "1" 0o700],
        Except.error (Panic.err (Error.mk "permission denied"))) ∧
    Effect.remove "/sys/fs/cgroup/pids/kontainer" ∉ (exec (main rootEnv notifyMissing)).1 := by
  decide

/-- C9 (counterexample): when the unmount of `/proc` fails the entrant
returns normally, and when the removal of the control group directory fails
the launcher returns normally: neither failure is fatal. -/
theorem C9_teardown_failures_not_fatal :
    (unmountBusy (Effect.unmount "/proc" 0) = some (Error.mk "device or resource busy") ∧
      Effect.unmount "/proc" 0 ∈ (exec (main echoChildEnv unmountBusy)).1 ∧
      (exec (main echoChildEnv unmountBusy)).2
        = Except.ok ()) ∧
    (removeBusy (Effect.remove "/sys/fs/cgroup/pids/kontainer")
        = some (Error.mk "device or resource busy") ∧
      Effect.remove "/sys/fs/cgroup/pids/kontainer" ∈ (exec (main rootEnv removeBusy)).1 ∧
      (exec (main rootEnv removeBusy)).2 = Except.ok ()) := by
  decide

/-- C9 (amended): teardown failures are not fatal. The results of the unmount
of `/proc` and of the removal of `/sys/fs/cgroup/pids/kontainer` are
discarded: two worlds that differ only in their answers to these two calls
give the same trace and the same result, so a phase whose other calls succeed
returns normally whether or not its teardown call fails. -/
theorem C9_teardown_results_discarded (e : Env) (w w' : World)
    (h : ∀ eff, eff ≠ Effect.unmount "/proc" 0 →
      eff ≠ Effect.remove "/sys/fs/cgroup/pids/kontainer" → w eff = w' eff) :
    exec (main e w) = exec (main e w') := by
  apply exec_main_congr
  intro eff hchk
  apply h eff <;> intro heq <;> simp [heq, Effect.isChecked] at hchk

/-- Host root with a failing removal behaves as with a successful one. -/
theorem C9_teardown_results_witness :
    removeBusy (Effect.remove "/sys/fs/cgroup/pids/kontainer") ≠ none ∧
    exec (main rootEnv removeBusy) = exec (main rootEnv allOk) :=
  ⟨by decide, C9_teardown_results_discarded rootEnv removeBusy allOk (by
    intro eff _ h2
    simp [removeBusy, allOk, h2])⟩

/-- C10: for every invocation of the entrant with command `c` and arguments
`as` in which every checked step succeeds (the mount, the lookup of `c` when
`c` is a name without separator, and the command; the results of the other
calls are discarded), the entrant returns normally and its effects are, in
this order: the banner, set hostname `kontainer`, `chroot` to `./rootfs`,
`chdir` to `/`, mount of type `proc` at `proc`, a printed line, the run of
the program `c` with the arguments `c`, `as` on the standard streams, a
printed line, unmount of `/proc`. The program run is at `path`: `c` itself
when `c` has a separator, and what the lookup of `c` found otherwise. Leaving
out the lines printed on standard output, the system effects are exactly the
six calls, with `chdir` right after `chroot`. -/
theorem C10_entrant_effect_sequence (e : Env) (w : World) (prog c path : String)
    (as : List String) (ha : e.args = prog :: "child" :: c :: as)
    (hm : w (Effect.mount "proc" "proc" "proc" 0 "") = none)
    (hp : (filepath.Base c ≠ c ∧ path = c) ∨
      (filepath.Base c = c ∧ e.lookPath c = (path, none)))
    (hne : path ≠ "")
    (hc : w (Effect.cmdRun (Cmd.mk path (c :: as) (some Stream.osStdin)
      (some Stream.osStdout) (some Stream.osStderr) none none)) = none) :
    exec (main e w)
      = ([Effect.print (childBanner e (c :: as)), Effect.sethostname "kontainer",
          Effect.chroot "./rootfs", Effect.chdir "/", Effect.mount "proc" "proc" "proc" 0 "",
          Effect.print "Creating Kontainer\n",
          Effect.cmdRun (Cmd.mk path (c :: as) (some Stream.osStdin) (some Stream.osStdout)
            (some Stream.osStderr) none none),
          Effect.print "Exiting Kontainer\n", Effect.unmount "/proc" 0],
        Except.ok ()) ∧
    sysEffects (exec (main e w)).1
      = [Effect.sethostname "kontainer", Effect.chroot "./rootfs", Effect.chdir "/",
          Effect.mount "proc" "proc" "proc" 0 "",
          Effect.cmdRun (Cmd.mk path (c :: as) (some Stream.osStdin) (some Stream.osStdout)
            (some Stream.osStderr) none none),
          Effect.unmount "/proc" 0] := by
  have hcmd : childCmd e.lookPath c as = Cmd.mk path (c :: as) (some Stream.osStdin)
      (some Stream.osStdout) (some Stream.osStderr) none none := by
    rcases hp with ⟨hsep, hpc⟩ | ⟨hbare, hl⟩
    · rw [hpc]
      exact childCmd_of_separator e.lookPath c as hsep
    · exact childCmd_of_lookup e.lookPath c path as hbare hl hne
  have hs : (childCmd e.lookPath c as).startError = none := by
    rw [hcmd]
    simp [Cmd.startError, hne]
  rw [main_child_ok e w prog c as ha hm hs (by rw [hcmd]; exact hc), hcmd]
  exact ⟨rfl, rfl⟩

/-- The entrant started as `kontainer child echo hello` with every call
succeeding and `echo` found at `/bin/echo`: the program run is `/bin/echo`
with the arguments `echo`, `hello`. -/
theorem C10_entrant_sequence_witness :
    sysEffects (exec (main echoChildEnv allOk)).1
      = [Effect.sethostname "kontainer", Effect.chroot "./rootfs", Effect.chdir "/",
          Effect.mount "proc" "proc" "proc" 0 "",
          Effect.cmdRun (Cmd.mk "/bin/echo" ["echo", "hello"] (some Stream.osStdin)
            (some Stream.osStdout) (some Stream.osStderr) none none),
          Effect.unmount "/proc" 0] :=
  (C10_entrant_effect_sequence echoChildEnv allOk "kontainer" "echo" "/bin/echo" ["hello"]
    rfl rfl (Or.inr ⟨by decide, rfl⟩) (by decide) rfl).2

/-- The entrant started as `kontainer child /bin/false` with every call
succeeding: the program run is `/bin/false` itself, without any lookup. -/
theorem entrant_sequence_with_separator :
    sysEffects (exec (main childEnv allOk)).1
      = [Effect.sethostname "kontainer", Effect.chroot "./rootfs", Effect.chdir "/",
          Effect.mount "proc" "proc" "proc" 0 "",
          Effect.cmdRun (Cmd.mk "/bin/false" ["/bin/false"] (some Stream.osStdin)
            (some Stream.osStdout) (some Stream.osStderr) none none),
          Effect.unmount "/proc" 0] := by
  decide

end Kontainer
